import Mathlib

/-!
Verification of the penalty-scraper (`main.py`, class `SofaScorePenaltyScraper`).

The shallow embedding below translates the pure data flow of the source:
HTTP transport, file writing and console printing are side channels; the
JSON payloads the code consumes are modelled as explicit records with
optional fields wherever the source uses `dict.get`, and required fields
wherever the source indexes directly (`match_info['homeTeam']['name']`).
-/

namespace AIPenalty

/-- One entry of a match's incident feed (`/event/{id}/incidents`).
Every field the source reads with `.get` is optional.  `fromField` stands
for the JSON key `from` (a Lean keyword); `playerName` for `player.name`.
`playerTeam` models the taker's club field present in provider payloads:
the source never reads it. -/
structure Incident where
  incidentType : Option String
  incidentClass : Option String
  fromField : Option String
  isHome : Option Bool
  time : Option Nat
  playerName : Option String
  playerTeam : Option String
  homeScore : Option Nat
  awayScore : Option Nat
  reason : Option String
deriving Repr, DecidableEq

/-- One entry of a team's event list (`/team/{id}/events/last/0`).
`id`, `homeTeam` and `awayTeam` are required because the source indexes
them directly (`match['id']`, `match_info['homeTeam']['name']`);
`tournamentId` models `tournament.uniqueTournament.id` read via `.get`
chains; `status` models the provider's `status.type` (e.g. `finished`,
`inprogress`), which the source never reads. -/
structure MatchInfo where
  id : Nat
  tournamentId : Option Nat
  homeTeam : String
  awayTeam : String
  startTimestamp : Option Nat
  round : Option Nat
  status : Option String
deriving Repr, DecidableEq

/-- `self.tournament_id = 52` (Super Lig). -/
def tournament_id : Nat := 52

/-- The `is_penalty` decision of `get_match_incidents` (lines 70-76):
an if/elif/elif chain on `incidentType`, `incidentClass` and `from`. -/
def is_penalty (i : Incident) : Bool :=
  if i.incidentType = some "goal" then decide (i.fromField = some "penalty")
  else if i.incidentType = some "varDecision" then
    decide (i.incidentClass = some "penaltyNotAwarded")
  else if i.incidentClass = some "penalty" then true
  else false

/-- The normalized output row built by `get_match_incidents` (lines 79-96).
`match_date` (a local-time strftime of the timestamp) and `raw_incident`
(a JSON dump kept for debugging) are presentation-only copies of fields
already present here and are not modelled. -/
structure PenaltyRecord where
  match_id : Nat
  timestamp : Option Nat
  home_team : String
  away_team : String
  round : Option Nat
  match_minute : Option Nat
  taker_name : Option String
  taker_team : String
  incident_type : Option String
  incident_class : Option String
  fromField : Option String
  result : String
  score_at_time : String
  reason : Option String
deriving Repr, DecidableEq

/-- The `penalty_data` dict literal of `get_match_incidents` (lines 79-96). -/
def penalty_data (event_id : Nat) (m : MatchInfo) (i : Incident) : PenaltyRecord :=
  { match_id := event_id
    timestamp := m.startTimestamp
    home_team := m.homeTeam
    away_team := m.awayTeam
    round := m.round
    match_minute := i.time
    taker_name := i.playerName
    taker_team := if i.isHome = some true then m.homeTeam else m.awayTeam
    incident_type := i.incidentType
    incident_class := i.incidentClass
    fromField := i.fromField
    result := if i.incidentType = some "goal" then "scored" else "not awarded/missed"
    score_at_time := toString (i.homeScore.getD 0) ++ "-" ++ toString (i.awayScore.getD 0)
    reason := i.reason }

/-- `get_match_incidents` (lines 54-101): take the response's `incidents`
key (defaulting to `[]` when absent), loop over it appending a
`penalty_data` row for each incident classified as a penalty.  The
argument `resp` is the fetched response's `incidents` field, `none` when
the key is missing. -/
def get_match_incidents (event_id : Nat) (m : MatchInfo)
    (resp : Option (List Incident)) : List PenaltyRecord :=
  (resp.getD []).foldl
    (fun acc i => if is_penalty i then acc ++ [penalty_data event_id m i] else acc) []

/-- `get_team_matches` (lines 35-52): take the response's `events` key
(defaulting to `[]`), keep only matches whose
`tournament.uniqueTournament.id` equals the configured tournament. -/
def get_team_matches (resp : Option (List MatchInfo)) : List MatchInfo :=
  (resp.getD []).filter (fun m => decide (m.tournamentId = some tournament_id))

/-- The external data provider as seen by one run of
`collect_team_penalties`: the team's event-list response and, for each
event id, the incident-feed response. -/
structure Provider where
  events : Option (List MatchInfo)
  incidents : Nat → Option (List Incident)

/-- The match loop of `collect_team_penalties` (lines 106-114): for each
filtered match, in list order, fetch its incident feed and extend the
accumulated penalties.  The first component records the trace of
incident-feed fetches (one event id per `get_match_incidents` call, line
111); the second is `all_penalties`.  (The `if penalties:` guard before
`extend` does not change the resulting list.) -/
def collect_run (p : Provider) : List Nat × List PenaltyRecord :=
  (get_team_matches p.events).foldl
    (fun st m =>
      (st.1 ++ [m.id], st.2 ++ get_match_incidents m.id m (p.incidents m.id)))
    ([], [])

/-- Event ids whose incident feed one run of `collect_team_penalties`
fetches, in fetch order. -/
def incident_fetches (p : Provider) : List Nat :=
  (collect_run p).1

/-- The `all_penalties` list of `collect_team_penalties` after the match
loop (line 105-113). -/
def all_penalties (p : Provider) : List PenaltyRecord :=
  (collect_run p).2

/-- A row of the returned DataFrame: the base penalty row plus the two
columns added on lines 125-129. -/
structure TeamPenaltyRecord where
  base : PenaltyRecord
  is_for_team : Bool
  opposition : String
deriving Repr, DecidableEq

/-- The DataFrame stage of `collect_team_penalties` (lines 116-133): keep
rows whose `home_team` or `away_team` equals `team_name`, then add
`is_for_team` and `opposition`.  (The `if not df.empty` branch returns
the empty frame unchanged, which coincides with filtering an empty
list.) -/
def collect_team_penalties (p : Provider) (team_name : String) :
    List TeamPenaltyRecord :=
  ((all_penalties p).filter
      (fun r => decide (r.home_team = team_name ∨ r.away_team = team_name))).map
    (fun r =>
      { base := r
        is_for_team := decide (r.taker_team = team_name)
        opposition := if r.home_team = team_name then r.away_team else r.home_team })

/-- Errors a fetch can end in.  The source's `_make_request` re-raises the
last underlying exception (`raise e`, line 32), modelled by `raw`.
`transport` is modelled from the spec: a typed `TransportError` carrying
the requested path and the attempt count; no code in the source
constructs it — it exists so the spec's error contract can be stated and
compared. -/
inductive FetchError where
  | raw (msg : String)
  | transport (path : String) (attempts : Nat)
deriving Repr, DecidableEq

/-- Whether an error is the spec's typed `TransportError`. -/
def FetchError.isTransport : FetchError → Bool
  | .transport _ _ => true
  | .raw _ => false

/-- The retry loop of `_make_request` (lines 23-33), from attempt number
`attempt` with the given fuel (`max_retries - attempt` iterations left).
`outcomes k` is what the underlying `requests.get`/`raise_for_status`/
`.json()` of attempt `k` yields: a parsed document or an exception
message.  Returns the result together with the number of attempts made
and the list of back-off sleeps (`2 ** attempt`, line 33) performed.
With zero fuel Python's loop body never runs and the function falls
through returning `None`; that case is inert here (the source always
calls with `max_retries = 3`). -/
def make_request_from {α : Type} (outcomes : Nat → Except String α) (attempt : Nat) :
    Nat → Except FetchError α × Nat × List Nat
  | 0 => (Except.error (FetchError.raw ""), 0, [])
  | 1 =>
    match outcomes attempt with
    | Except.ok v => (Except.ok v, 1, [])
    | Except.error e => (Except.error (FetchError.raw e), 1, [])
  | n + 2 =>
    match outcomes attempt with
    | Except.ok v => (Except.ok v, 1, [])
    | Except.error _ =>
      let rest := make_request_from outcomes (attempt + 1) (n + 1)
      (rest.1, rest.2.1 + 1, 2 ^ attempt :: rest.2.2)

/-- `_make_request(url, max_retries)`: run the retry loop from attempt 0. -/
def make_request {α : Type} (outcomes : Nat → Except String α)
    (max_retries : Nat) : Except FetchError α × Nat × List Nat :=
  make_request_from outcomes 0 max_retries

/-! Concrete fixtures used by witnesses and counterexamples. -/

/-- A finished in-competition match. -/
def mA : MatchInfo := ⟨7, some 52, "A", "B", some 100, some 1, some "finished"⟩

/-- An out-of-competition match (tournament 1). -/
def mOther : MatchInfo := ⟨3, some 1, "X", "Y", none, none, some "finished"⟩

/-- An in-competition match that is still in progress. -/
def mLive : MatchInfo := ⟨9, some 52, "H", "W", some 200, some 2, some "inprogress"⟩

/-- A converted penalty: type `goal`, origin `penalty`, home side. -/
def gIncident : Incident :=
  ⟨some "goal", some "penalty", some "penalty", some true, some 12, some "G", none,
    some 1, some 0, none⟩

/-- An overturned penalty: `varDecision` / `penaltyNotAwarded`, no player. -/
def vIncident : Incident :=
  ⟨some "varDecision", some "penaltyNotAwarded", none, some false, some 30, none, none,
    none, none, some "checked"⟩

/-- A missed penalty: classification `penalty`, type neither `goal` nor
`varDecision`. -/
def cIncident : Incident :=
  ⟨some "inGamePenalty", some "penalty", none, some true, some 60, some "M", none,
    none, none, none⟩

/-- A provider whose event list repeats the same match twice. -/
def pDup : Provider := ⟨some [mA, mA], fun _ => some []⟩

/-- A provider with one in-competition match and empty incident feeds. -/
def pGood : Provider := ⟨some [mA], fun _ => some []⟩

/-- A provider whose only match is in progress yet carries a penalty. -/
def pLive : Provider := ⟨some [mLive], fun _ => some [gIncident]⟩

/-- A provider with one finished match containing a converted penalty. -/
def pHome : Provider := ⟨some [mA], fun _ => some [gIncident]⟩

/-- The sole row `collect_team_penalties pHome "A"` produces. -/
def tprExample : TeamPenaltyRecord := ⟨penalty_data 7 mA gIncident, true, "B"⟩

/-- Attempt outcomes that fail twice and then return a document. -/
def outcomes3 : Nat → Except String Nat
  | 0 => Except.error "e0"
  | 1 => Except.error "e1"
  | _ => Except.ok 42

/-- Attempt outcomes that always fail. -/
def failOutcomes : Nat → Except String Nat := fun _ => Except.error "boom"

/-! Helper lemmas shared by the claim theorems. -/

/-- Folding an append-if-selected step equals filter-then-map. -/
theorem foldl_select_append {α β : Type} (p : α → Bool) (g : α → β) (l : List α) :
    ∀ acc : List β,
      l.foldl (fun acc i => if p i then acc ++ [g i] else acc) acc
        = acc ++ (l.filter p).map g := by
  induction l with
  | nil => intro acc; simp
  | cons x xs ih =>
    intro acc
    by_cases hx : p x
    · simp [List.filter_cons, hx, ih]
    · simp [List.filter_cons, hx, ih]

/-- The incident loop is filter-then-map over the feed. -/
theorem get_match_incidents_some (event_id : Nat) (m : MatchInfo)
    (incs : List Incident) :
    get_match_incidents event_id m (some incs)
      = (incs.filter is_penalty).map (penalty_data event_id m) := by
  unfold get_match_incidents
  simpa using foldl_select_append is_penalty (penalty_data event_id m) incs []

/-- Unrolled form of the match loop with arbitrary accumulators. -/
theorem collect_run_foldl (p : Provider) (l : List MatchInfo) :
    ∀ (f : List Nat) (a : List PenaltyRecord),
      l.foldl
        (fun st m =>
          (st.1 ++ [m.id], st.2 ++ get_match_incidents m.id m (p.incidents m.id)))
        (f, a)
      = (f ++ l.map (fun m => m.id),
          a ++ l.flatMap (fun m => get_match_incidents m.id m (p.incidents m.id))) := by
  induction l with
  | nil => intro f a; simp
  | cons x xs ih => intro f a; simp [ih]

/-- The fetch trace is one incident-feed fetch per filtered match. -/
theorem incident_fetches_eq (p : Provider) :
    incident_fetches p = (get_team_matches p.events).map (fun m => m.id) := by
  unfold incident_fetches collect_run
  rw [collect_run_foldl]
  simp

/-- `all_penalties` concatenates each filtered match's extracted rows. -/
theorem all_penalties_eq (p : Provider) :
    all_penalties p
      = (get_team_matches p.events).flatMap
          (fun m => get_match_incidents m.id m (p.incidents m.id)) := by
  unfold all_penalties collect_run
  rw [collect_run_foldl]
  simp

/-! Claim theorems. -/

/-- Claim C1: each incident is classified by a three-way first-match-wins
rule — a `goal` incident is a penalty iff `from = penalty`; otherwise a
`varDecision` incident is a penalty iff `incidentClass = penaltyNotAwarded`;
otherwise the incident is a penalty iff `incidentClass = penalty` — and the
output contains rows exactly for the incidents the rule accepts, so
incidents matching none of the rules are excluded. -/
theorem classifier_three_way_rule (i : Incident) (event_id : Nat) (m : MatchInfo)
    (incs : List Incident) :
    (i.incidentType = some "goal" →
      (is_penalty i = true ↔ i.fromField = some "penalty"))
  ∧ (i.incidentType ≠ some "goal" → i.incidentType = some "varDecision" →
      (is_penalty i = true ↔ i.incidentClass = some "penaltyNotAwarded"))
  ∧ (i.incidentType ≠ some "goal" → i.incidentType ≠ some "varDecision" →
      (is_penalty i = true ↔ i.incidentClass = some "penalty"))
  ∧ get_match_incidents event_id m (some incs)
      = (incs.filter is_penalty).map (penalty_data event_id m) := by
  refine ⟨?_, ?_, ?_, get_match_incidents_some event_id m incs⟩
  · intro h; simp [is_penalty, h]
  · intro h1 h2; simp [is_penalty, h1, h2]
  · intro h1 h2; simp [is_penalty, h1, h2]

/-- Witness for C1: one incident per branch of the rule. -/
theorem classifier_three_way_rule_witness :
    (is_penalty gIncident = true ↔ gIncident.fromField = some "penalty")
  ∧ (is_penalty vIncident = true ↔ vIncident.incidentClass = some "penaltyNotAwarded")
  ∧ (is_penalty cIncident = true ↔ cIncident.incidentClass = some "penalty") :=
  ⟨(classifier_three_way_rule gIncident 1 mA []).1 rfl,
   (classifier_three_way_rule vIncident 1 mA []).2.1 (by decide) rfl,
   (classifier_three_way_rule cIncident 1 mA []).2.2.1 (by decide) (by decide)⟩

/-- Claim C2: every produced row has `result = "scored"` iff the incident's
type tag is exactly `goal`; in particular a `varDecision` row is always
`"not awarded/missed"`, regardless of any score fields. -/
theorem outcome_scored_iff_goal (event_id : Nat) (m : MatchInfo)
    (incs : List Incident) (r : PenaltyRecord)
    (hr : r ∈ get_match_incidents event_id m (some incs)) :
    (r.result = "scored" ↔ r.incident_type = some "goal")
  ∧ (r.incident_type = some "varDecision" → r.result = "not awarded/missed") := by
  rw [get_match_incidents_some] at hr
  obtain ⟨j, hj, rfl⟩ := List.mem_map.mp hr
  by_cases hg : j.incidentType = some "goal"
  · constructor
    · simp [penalty_data, hg]
    · intro hv
      simp only [penalty_data] at hv
      rw [hg] at hv
      exact absurd hv (by decide)
  · constructor
    · simp [penalty_data, hg]
    · intro hv
      simp [penalty_data, hg]

/-- Witness for C2: a converted penalty is recorded as scored. -/
theorem outcome_scored_iff_goal_witness :
    (penalty_data 1 mA gIncident).result = "scored"
      ↔ (penalty_data 1 mA gIncident).incident_type = some "goal" :=
  (outcome_scored_iff_goal 1 mA [gIncident] (penalty_data 1 mA gIncident)
    (by decide)).1

/-- Counterexample to C3: the event list is not deduplicated, so a provider
response repeating match 7 makes the run fetch match 7's incident feed
twice. -/
theorem match_refetch_counterexample :
    (incident_fetches pDup).count 7 = 2 := by decide

/-- Claim C3 as amended: the run fetches a match's incident feed once per
occurrence of the match in the filtered event list (and the team's event
list itself is fetched once, being the run's single input response), so
no match is fetched twice exactly when the filtered list has no duplicate
ids. -/
theorem incident_fetch_count_eq_occurrences (p : Provider) (event_id : Nat) :
    (incident_fetches p).count event_id
      = ((get_team_matches p.events).map (fun m => m.id)).count event_id
  ∧ (((get_team_matches p.events).map (fun m => m.id)).Nodup →
      (incident_fetches p).count event_id ≤ 1) := by
  refine ⟨by rw [incident_fetches_eq], ?_⟩
  intro hn
  rw [incident_fetches_eq]
  exact List.nodup_iff_count_le_one.mp hn event_id

/-- Witness for amended C3: with a duplicate-free event list each feed is
fetched at most once. -/
theorem incident_fetch_count_eq_occurrences_witness :
    (incident_fetches pGood).count 7 ≤ 1 :=
  (incident_fetch_count_eq_occurrences pGood 7).2 (by decide)

/-- Counterexample to C4: the run fetches the incident feed of an
in-progress match (no status check exists), and that match contributes a
penalty row rather than zero. -/
theorem unfinished_match_fetched_counterexample :
    mLive.status = some "inprogress"
  ∧ incident_fetches pLive = [9]
  ∧ (all_penalties pLive).length = 1 := by decide

/-- Claim C4 as amended: every event-list match in the configured
tournament has its incident feed fetched, regardless of its status —
unfinished matches are not skipped. -/
theorem in_competition_matches_always_fetched (p : Provider) (m : MatchInfo)
    (hm : m ∈ p.events.getD []) (ht : m.tournamentId = some tournament_id) :
    m.id ∈ incident_fetches p := by
  rw [incident_fetches_eq]
  refine List.mem_map_of_mem _ ?_
  unfold get_team_matches
  exact List.mem_filter.mpr ⟨hm, decide_eq_true ht⟩

/-- Witness for amended C4: the in-progress match's feed is fetched. -/
theorem in_competition_matches_always_fetched_witness :
    mLive.id ∈ incident_fetches pLive :=
  in_competition_matches_always_fetched pLive mLive (by decide) (by decide)

/-- Counterexample to C5: when every attempt fails, the fetch re-raises the
raw underlying error of the last attempt — no typed transport error
carrying the path and attempt count is produced. -/
theorem raw_error_not_transport_counterexample :
    (make_request failOutcomes 3).1 = Except.error (FetchError.raw "boom")
  ∧ (make_request failOutcomes 3).2.1 = 3
  ∧ FetchError.isTransport (FetchError.raw "boom") = false :=
  ⟨rfl, rfl, rfl⟩

/-- Claim C5 as amended: when all three attempts fail, the fetch makes
exactly three attempts, sleeps twice, and fails with the raw error of the
final attempt. -/
theorem exhausted_retries_raise_raw_error {α : Type}
    (outcomes : Nat → Except String α) (e0 e1 e2 : String)
    (h0 : outcomes 0 = Except.error e0) (h1 : outcomes 1 = Except.error e1)
    (h2 : outcomes 2 = Except.error e2) :
    make_request outcomes 3 = (Except.error (FetchError.raw e2), 3, [2 ^ 0, 2 ^ 1]) := by
  simp [make_request, make_request_from, h0, h1, h2]

/-- Witness for amended C5 at an always-failing outcome stream. -/
theorem exhausted_retries_raise_raw_error_witness :
    make_request failOutcomes 3
      = (Except.error (FetchError.raw "boom"), 3, [2 ^ 0, 2 ^ 1]) :=
  exhausted_retries_raise_raw_error failOutcomes "boom" "boom" "boom" rfl rfl rfl

/-- Claim C6: failing twice and succeeding on the third attempt returns the
third attempt's document after exactly three attempts and two back-off
sleeps of `2 ^ 0` and `2 ^ 1` seconds. -/
theorem retry_twice_then_success {α : Type} (outcomes : Nat → Except String α)
    (e0 e1 : String) (v : α)
    (h0 : outcomes 0 = Except.error e0) (h1 : outcomes 1 = Except.error e1)
    (h2 : outcomes 2 = Except.ok v) :
    make_request outcomes 3 = (Except.ok v, 3, [2 ^ 0, 2 ^ 1]) := by
  simp [make_request, make_request_from, h0, h1, h2]

/-- Witness for C6 at a concrete fail-fail-succeed outcome stream. -/
theorem retry_twice_then_success_witness :
    make_request outcomes3 3 = (Except.ok 42, 3, [2 ^ 0, 2 ^ 1]) :=
  retry_twice_then_success outcomes3 "e0" "e1" 42 rfl rfl rfl

/-- Claim C7: empty results are not errors — a missing or empty event list,
an event list with no in-competition match, and a missing or empty
incident feed all yield empty sequences. -/
theorem empty_results_not_errors (event_id : Nat) (m : MatchInfo)
    (events : List MatchInfo)
    (h : ∀ e ∈ events, e.tournamentId ≠ some tournament_id) :
    get_team_matches none = []
  ∧ get_team_matches (some []) = []
  ∧ get_team_matches (some events) = []
  ∧ get_match_incidents event_id m none = []
  ∧ get_match_incidents event_id m (some []) = [] := by
  refine ⟨rfl, rfl, ?_, rfl, rfl⟩
  unfold get_team_matches
  simp only [Option.getD_some]
  rw [List.filter_eq_nil_iff]
  intro e he
  simpa using h e he

/-- Witness for C7: an out-of-competition event list filters to nothing. -/
theorem empty_results_not_errors_witness :
    get_team_matches (some [mOther]) = [] :=
  (empty_results_not_errors 1 mA [mOther] (by decide)).2.2.1

/-- Claim C8: a `varDecision` / `penaltyNotAwarded` incident with no player
field is classified as a penalty, yields exactly one row for a feed
containing it alone, with result `"not awarded/missed"` and no taker
name, and the extraction is total (no crash). -/
theorem var_decision_without_player (event_id : Nat) (m : MatchInfo)
    (i : Incident) (ht : i.incidentType = some "varDecision")
    (hc : i.incidentClass = some "penaltyNotAwarded") (hp : i.playerName = none) :
    is_penalty i = true
  ∧ get_match_incidents event_id m (some [i]) = [penalty_data event_id m i]
  ∧ (penalty_data event_id m i).result = "not awarded/missed"
  ∧ (penalty_data event_id m i).taker_name = none := by
  have hg : i.incidentType ≠ some "goal" := by rw [ht]; decide
  have hpen : is_penalty i = true := by simp [is_penalty, hg, ht, hc]
  refine ⟨hpen, ?_, ?_, hp⟩
  · rw [get_match_incidents_some]
    simp [List.filter_cons, hpen]
  · simp [penalty_data, hg]

/-- Witness for C8 at the concrete overturned-penalty incident. -/
theorem var_decision_without_player_witness :
    get_match_incidents 1 mA (some [vIncident]) = [penalty_data 1 mA vIncident] :=
  (var_decision_without_player 1 mA vIncident rfl rfl rfl).2.1

/-- Claim C9: `taker_team` is the match's home name when the incident's
home flag is set and the away name otherwise, never read from the taker's
club field (changing that field cannot change `taker_team`, and every
produced row's `taker_team` is one of the two participant names), and
`score_at_time` is `"<homeScore>-<awayScore>"` with absent sides
defaulting to 0. -/
theorem taker_team_and_score_resolution (event_id : Nat) (m : MatchInfo)
    (i : Incident) :
    (i.isHome = some true → (penalty_data event_id m i).taker_team = m.homeTeam)
  ∧ (i.isHome ≠ some true → (penalty_data event_id m i).taker_team = m.awayTeam)
  ∧ (∀ t : Option String,
      (penalty_data event_id m { i with playerTeam := t }).taker_team
        = (penalty_data event_id m i).taker_team)
  ∧ (penalty_data event_id m i).score_at_time
      = toString (i.homeScore.getD 0) ++ "-" ++ toString (i.awayScore.getD 0)
  ∧ (i.homeScore = none → i.awayScore = none →
      (penalty_data event_id m i).score_at_time = "0-0")
  ∧ (∀ incs : List Incident, ∀ r ∈ get_match_incidents event_id m (some incs),
      r.taker_team = m.homeTeam ∨ r.taker_team = m.awayTeam) := by
  refine ⟨?_, ?_, fun t => rfl, rfl, ?_, ?_⟩
  · intro h; simp [penalty_data, h]
  · intro h; simp [penalty_data, h]
  · intro h1 h2; simp [penalty_data, h1, h2]; rfl
  · intro incs r hr
    rw [get_match_incidents_some] at hr
    obtain ⟨j, hj, rfl⟩ := List.mem_map.mp hr
    by_cases hh : j.isHome = some true
    · left; simp [penalty_data, hh]
    · right; simp [penalty_data, hh]

/-- Witness for C9: the home-flagged converted penalty is credited to the
home team, and no-score sides format as 0-0. -/
theorem taker_team_and_score_resolution_witness :
    (penalty_data 1 mA gIncident).taker_team = mA.homeTeam
  ∧ (penalty_data 1 mA vIncident).score_at_time = "0-0" :=
  ⟨(taker_team_and_score_resolution 1 mA gIncident).1 rfl,
   (taker_team_and_score_resolution 1 mA vIncident).2.2.2.2.1 rfl rfl⟩

/-- Claim C10: every row returned by the per-team collection names the
supplied team as home or away (rows from other pairings are filtered
out), its `is_for_team` column is true exactly when the taker's team is
the supplied name, and its `opposition` column is the other participant's
name. -/
theorem team_filter_and_augmentation (p : Provider) (team_name : String)
    (r : TeamPenaltyRecord) (hr : r ∈ collect_team_penalties p team_name) :
    (r.base.home_team = team_name ∨ r.base.away_team = team_name)
  ∧ (r.is_for_team = true ↔ r.base.taker_team = team_name)
  ∧ r.opposition
      = (if r.base.home_team = team_name then r.base.away_team
         else r.base.home_team) := by
  unfold collect_team_penalties at hr
  obtain ⟨q, hq, rfl⟩ := List.mem_map.mp hr
  refine ⟨of_decide_eq_true (List.mem_filter.mp hq).2, ?_, rfl⟩
  simp

/-- Witness for C10 at a run over one finished home match. -/
theorem team_filter_and_augmentation_witness :
    tprExample.base.home_team = "A" ∨ tprExample.base.away_team = "A" :=
  (team_filter_and_augmentation pHome "A" tprExample (by decide)).1

end AIPenalty
